import Mathlib

/-!
Verification of the NASA APOD local exporter (`apod_exporter_sync.py`,
threading-based, and `apod_local_exporter.py`, asyncio-based).

The embedding models the two batch exporters over an explicit collaborator
`Oracle` (HTTP GET by URL, filesystem write).  Exceptions raised by a
collaborator (transport errors, non-2xx `HTTPError` in `urllib`, JSON decode
errors, `OSError` on write) appear as the `.error` side of `Except`.  The
worker functions return the boolean the Python `download_apod` returns,
together with the list of collaborator calls it issued (its side-effect
trace).  Concurrent execution is modelled in two ways: the order in which
`as_completed` yields futures is an explicit permutation parameter of the
sync runner, and the admission gate (ThreadPoolExecutor with `max_workers`
threads / `asyncio.Semaphore`) is a small-step transition system.
-/

namespace Nasa4s

/-- The parsed APOD metadata JSON object; the code only inspects the
optional `url` field (`if 'url' not in metadata`). -/
structure Metadata where
  url? : Option String
deriving DecidableEq, Repr

/-- Collaborator behaviour for one batch run, keyed by the URL / file name
the code constructs.  `getMeta` is the HTTP GET of the metadata endpoint:
`.error` models a raised exception (transport failure, `urllib`'s
`HTTPError`, JSON decode failure), `.ok (status, md)` a response that
arrived with the given status code and parsed body.  `getImage` is the
image GET, `writeFile` the `open(..., 'wb')` + `write` of the payload. -/
structure Oracle where
  getMeta : String → Except String (Nat × Metadata)
  getImage : String → Except String (Nat × List Nat)
  writeFile : String → List Nat → Except String Unit

/-- `metadata_url = f"https://api.nasa.gov/planetary/apod?api_key={...}&date={...}"`. -/
def metadataUrl (apiKey date : String) : String :=
  "https://api.nasa.gov/planetary/apod?api_key=" ++ apiKey ++ "&date=" ++ date

/-- `output_file = f"apod-export-{index}.jpg"` (same in both variants). -/
def outputFile (index : Nat) : String :=
  "apod-export-" ++ toString index ++ ".jpg"

/-- One collaborator call as issued by a worker, with the per-call timeout
argument the code passes: `urllib.request.urlopen(url, timeout=30)` in the
sync variant, `session.get(url)` (no explicit timeout) in the async one,
and no timeout parameter at all on the file write. -/
inductive Call
  | locate (url : String) (timeoutArg : Option Nat)
  | fetch (url : String) (timeoutArg : Option Nat)
  | persist (file : String)
deriving DecidableEq, Repr

/-- The timeout argument carried by a call (`none` for the file write). -/
def Call.timeoutArg : Call → Option Nat
  | .locate _ t => t
  | .fetch _ t => t
  | .persist _ => none

/-- Whether a call is the image fetch. -/
def Call.isFetch : Call → Bool
  | .fetch _ _ => true
  | _ => false

/-- Whether a call is the file write. -/
def Call.isPersist : Call → Bool
  | .persist _ => true
  | _ => false

/-- Whether a call is an HTTP call (locate or fetch). -/
def Call.isHttp : Call → Bool
  | .locate _ _ => true
  | .fetch _ _ => true
  | .persist _ => false

/-- `ApodExporter.download_apod` of `apod_exporter_sync.py` (lines 37-69):
fetch metadata with `urlopen(metadata_url, timeout=30)`, return `False` if
`'url' not in metadata`, fetch the image with `urlopen(image_url,
timeout=30)`, write `apod-export-{index}.jpg`, return `True`; the whole
body is wrapped in `try/except Exception`, which returns `False` on any
raised error.  `urllib` raises on non-2xx statuses, so an error status
surfaces as `.error` and the status field of an `.ok` response is not
consulted.  The second component is the trace of collaborator calls. -/
def downloadApodSync (o : Oracle) (apiKey date : String) (index : Nat) :
    Bool × List Call :=
  let murl := metadataUrl apiKey date
  match o.getMeta murl with
  | .error _ => (false, [.locate murl (some 30)])
  | .ok (_, md) =>
    match md.url? with
    | none => (false, [.locate murl (some 30)])
    | some imageUrl =>
      match o.getImage imageUrl with
      | .error _ => (false, [.locate murl (some 30), .fetch imageUrl (some 30)])
      | .ok (_, imageData) =>
        let file := outputFile index
        match o.writeFile file imageData with
        | .error _ =>
          (false, [.locate murl (some 30), .fetch imageUrl (some 30), .persist file])
        | .ok _ =>
          (true, [.locate murl (some 30), .fetch imageUrl (some 30), .persist file])

/-- `ApodExporter.download_apod` of `apod_local_exporter.py` (lines 37-78):
same composition, but via `session.get` with no explicit timeout, and with
an explicit `response.status != 200` check after each GET that returns
`False`; the body is likewise wrapped in `try/except Exception`. -/
def downloadApodAsync (o : Oracle) (apiKey date : String) (index : Nat) :
    Bool × List Call :=
  let murl := metadataUrl apiKey date
  match o.getMeta murl with
  | .error _ => (false, [.locate murl none])
  | .ok (status, md) =>
    if status ≠ 200 then (false, [.locate murl none])
    else
      match md.url? with
      | none => (false, [.locate murl none])
      | some imageUrl =>
        match o.getImage imageUrl with
        | .error _ => (false, [.locate murl none, .fetch imageUrl none])
        | .ok (istatus, imageData) =>
          if istatus ≠ 200 then (false, [.locate murl none, .fetch imageUrl none])
          else
            let file := outputFile index
            match o.writeFile file imageData with
            | .error _ =>
              (false, [.locate murl none, .fetch imageUrl none, .persist file])
            | .ok _ =>
              (true, [.locate murl none, .fetch imageUrl none, .persist file])

/-- The value a batch run returns together with its observable effects:
the collected per-item booleans (`results`), the collaborator calls issued
(serialized per item in index order; the interleaving is immaterial to the
properties proved here), and the return value `all(results)`. -/
structure BatchOutcome where
  outcomes : List Bool
  calls : List Call
  ret : Bool
deriving DecidableEq, Repr

/-- A raised Python exception at the batch-run level. -/
inductive PyError
  | valueError (msg : String)
deriving DecidableEq, Repr

/-- The per-item executions of the sync `export` (lines 87-92):
`enumerate(dates)` submits `download_apod(date, index)` for each item. -/
def itemsSync (o : Oracle) (apiKey : String) (dates : List String) :
    List (Bool × List Call) :=
  dates.enum.map fun p => downloadApodSync o apiKey p.2 p.1

/-- The per-item task results of the async `export` (lines 93-98). -/
def itemsAsync (o : Oracle) (apiKey : String) (dates : List String) :
    List (Bool × List Call) :=
  dates.enum.map fun p => downloadApodAsync o apiKey p.2 p.1

/-- `ApodExporter.export` of `apod_exporter_sync.py` (lines 71-120).
`ThreadPoolExecutor(max_workers=maxDl)` raises
`ValueError("max_workers must be greater than 0")` when `maxDl <= 0`,
before any future is submitted (zero collaborator calls).  Otherwise every
item is submitted and `as_completed` yields each future exactly once, in a
completion order modelled by the permutation `comp` of `range K`;
`future.result()` is the worker's boolean (the worker catches every
exception, so the runner's own `except` branch that appends `False` is
unreachable).  The function returns `all(results)`.  `maxExp`
(`max_concurrent_exports`) is stored and printed but never consulted. -/
def runSync (o : Oracle) (apiKey : String) (maxDl _maxExp : Int)
    (dates : List String) (comp : List Nat) : Except PyError BatchOutcome :=
  if maxDl ≤ 0 then .error (.valueError "max_workers must be greater than 0")
  else
    let items := itemsSync o apiKey dates
    let perItem := items.map Prod.fst
    let results := comp.map fun i => perItem.getD i false
    .ok { outcomes := results
          calls := (items.map Prod.snd).flatten
          ret := results.all id }

/-- Result of the async application: the constructor or the run can raise
(`.error`), the run can deadlock and never complete (`.hangs`), or it
completes with a `BatchOutcome` (`.done`). -/
inductive AsyncRun
  | error (e : PyError)
  | hangs
  | done (r : BatchOutcome)
deriving DecidableEq, Repr

/-- `ApodExporter.__init__` + `export` of `apod_local_exporter.py` (lines
31-117).  `asyncio.Semaphore(maxDl)` in `__init__` raises
`ValueError("Semaphore initial value must be >= 0")` when `maxDl < 0`.
With `maxDl = 0` and a nonempty batch, every worker blocks forever on
`async with self.semaphore` and no task ever releases it, so
`asyncio.gather` never completes: the run hangs with zero collaborator
calls.  Otherwise `gather` returns the task results in task-creation
order, i.e. in input-index order, and `export` returns `all(results)`. -/
def runAsync (o : Oracle) (apiKey : String) (maxDl _maxExp : Int)
    (dates : List String) : AsyncRun :=
  if maxDl < 0 then .error (.valueError "Semaphore initial value must be >= 0")
  else if maxDl = 0 ∧ dates ≠ [] then .hangs
  else
    let items := itemsAsync o apiKey dates
    let results := items.map Prod.fst
    .done { outcomes := results
            calls := (items.map Prod.snd).flatten
            ret := results.all id }

/-- `main` of `apod_exporter_sync.py` (lines 123-143): API key from the
environment with default `"DEMO_KEY"`, dates from `sys.argv[1:]` or the
default `["2020-03-01"]`, exporter constructed with both limits 3, and
`sys.exit(0 if success else 1)`. -/
def mainSync (o : Oracle) (envApiKey : Option String) (argv : List String)
    (comp : List Nat) : Except PyError Nat :=
  let apiKey := envApiKey.getD "DEMO_KEY"
  let dates := if argv = [] then ["2020-03-01"] else argv
  match runSync o apiKey 3 3 dates comp with
  | .error e => .error e
  | .ok r => .ok (if r.ret then 0 else 1)

/-- `main` of `apod_local_exporter.py` (lines 120-141): identical shape. -/
def mainAsync (o : Oracle) (envApiKey : Option String) (argv : List String) :
    Except PyError Nat :=
  let apiKey := envApiKey.getD "DEMO_KEY"
  let dates := if argv = [] then ["2020-03-01"] else argv
  match runAsync o apiKey 3 3 dates with
  | .error e => .error e
  | .hangs => .error (.valueError "unreachable: limit is 3")
  | .done r => .ok (if r.ret then 0 else 1)

/-- Outcome list of a sync run (empty when the run raised). -/
def syncOutcomes (x : Except PyError BatchOutcome) : List Bool :=
  match x with
  | .ok r => r.outcomes
  | .error _ => []

/-- Call trace of a sync run (empty when the run raised). -/
def syncCalls (x : Except PyError BatchOutcome) : List Call :=
  match x with
  | .ok r => r.calls
  | .error _ => []

/-! ### The bounded-concurrency admission gate

Both variants gate the workers with a budget of `max_concurrent_downloads`
execution slots: a pool of that many threads in the sync variant, an
`asyncio.Semaphore` with that initial value in the async one.  The gate is
modelled as a transition system over the indices of the work items: a
queued item may start only while fewer than `n` items are inside the
worker body, and a running item may finish at any time, freeing its slot. -/

/-- Scheduler state: item indices not yet started, currently inside the
worker body (between semaphore acquire / thread dispatch and return), and
completed. -/
structure SchedState where
  queued : List Nat
  running : List Nat
  done : List Nat
deriving DecidableEq, Repr

/-- Initial scheduler state for a batch of `k` items. -/
def initState (k : Nat) : SchedState :=
  { queued := List.range k, running := [], done := [] }

/-- One scheduler transition with budget `n`: the next queued item starts
when a slot is free (the thread pool has an idle thread / the semaphore is
positive), or any running item completes, releasing its slot. -/
inductive SchedStep (n : Nat) : SchedState → SchedState → Prop
  | start (i : Nat) (rest r d : List Nat) :
      r.length < n →
      SchedStep n ⟨i :: rest, r, d⟩ ⟨rest, i :: r, d⟩
  | finish (i : Nat) (q r₁ r₂ d : List Nat) :
      SchedStep n ⟨q, r₁ ++ i :: r₂, d⟩ ⟨q, r₁ ++ r₂, i :: d⟩

/-- States reachable during a batch of `k` items under budget `n`. -/
inductive Reachable (n k : Nat) : SchedState → Prop
  | init : Reachable n k (initState k)
  | step {s t : SchedState} :
      Reachable n k s → SchedStep n s t → Reachable n k t

/-! ### Concrete collaborator behaviours used to evaluate the embedding -/

/-- A collaborator where every call succeeds: metadata always carries a
`url` field, the image GET returns bytes `[7, 7]`, writes succeed. -/
def oracleAllOk : Oracle where
  getMeta := fun _ => .ok (200, ⟨some "img"⟩)
  getImage := fun _ => .ok (200, [7, 7])
  writeFile := fun _ _ => .ok ()

/-- A collaborator where the metadata GET for date `"A"` (under API key
`"k"`) raises and every other call succeeds. -/
def oracleFailA : Oracle where
  getMeta := fun url =>
    if url = metadataUrl "k" "A" then .error "boom" else .ok (200, ⟨some "img"⟩)
  getImage := fun _ => .ok (200, [7, 7])
  writeFile := fun _ _ => .ok ()

/-- A collaborator where the metadata GET for date `"B"` (under API key
`"k"`) raises and every other call succeeds — the spec's scenario B. -/
def oracleFailB : Oracle where
  getMeta := fun url =>
    if url = metadataUrl "k" "B" then .error "boom" else .ok (200, ⟨some "img"⟩)
  getImage := fun _ => .ok (200, [7, 7])
  writeFile := fun _ _ => .ok ()

/-! ### Helper lemmas -/

theorem map_getD_range (l : List Bool) :
    (List.range l.length).map (fun i => l.getD i false) = l := by
  apply List.ext_get
  · simp
  · intro i h1 h2
    simp [List.getD_eq_getElem, h2]

theorem perm_all_eq {l₁ l₂ : List Bool} (h : l₁.Perm l₂) (p : Bool → Bool) :
    l₁.all p = l₂.all p := by
  rw [Bool.eq_iff_iff, List.all_eq_true, List.all_eq_true]
  exact ⟨fun ha x hx => ha x (h.mem_iff.mpr hx),
         fun ha x hx => ha x (h.mem_iff.mp hx)⟩

theorem itemsSync_length (o : Oracle) (apiKey : String) (dates : List String) :
    (itemsSync o apiKey dates).length = dates.length := by
  simp [itemsSync]

theorem itemsAsync_length (o : Oracle) (apiKey : String) (dates : List String) :
    (itemsAsync o apiKey dates).length = dates.length := by
  simp [itemsAsync]

theorem runSync_ok (o : Oracle) (apiKey : String) (maxDl maxExp : Int)
    (dates : List String) (comp : List Nat) (hN : 1 ≤ maxDl) :
    runSync o apiKey maxDl maxExp dates comp =
      .ok { outcomes := comp.map fun i =>
              ((itemsSync o apiKey dates).map Prod.fst).getD i false
            calls := ((itemsSync o apiKey dates).map Prod.snd).flatten
            ret := (comp.map fun i =>
              ((itemsSync o apiKey dates).map Prod.fst).getD i false).all id } := by
  have : ¬ maxDl ≤ 0 := by omega
  simp [runSync, this]

theorem runAsync_done (o : Oracle) (apiKey : String) (maxDl maxExp : Int)
    (dates : List String) (hN : 1 ≤ maxDl) :
    runAsync o apiKey maxDl maxExp dates =
      .done { outcomes := (itemsAsync o apiKey dates).map Prod.fst
              calls := ((itemsAsync o apiKey dates).map Prod.snd).flatten
              ret := ((itemsAsync o apiKey dates).map Prod.fst).all id } := by
  have h1 : ¬ maxDl < 0 := by omega
  have h2 : ¬ (maxDl = 0 ∧ dates ≠ []) := by rintro ⟨h, -⟩; omega
  simp [runAsync, h1, h2]

/-- With a valid completion permutation, the sync outcome list is a
permutation of the per-item (index-ordered) outcome list. -/
theorem syncOutcomes_perm (o : Oracle) (apiKey : String) (maxDl maxExp : Int)
    (dates : List String) (comp : List Nat) (hN : 1 ≤ maxDl)
    (hc : comp.Perm (List.range dates.length)) :
    (syncOutcomes (runSync o apiKey maxDl maxExp dates comp)).Perm
      ((itemsSync o apiKey dates).map Prod.fst) := by
  rw [runSync_ok o apiKey maxDl maxExp dates comp hN]
  show (comp.map fun i =>
      ((itemsSync o apiKey dates).map Prod.fst).getD i false).Perm _
  have hlen : ((itemsSync o apiKey dates).map Prod.fst).length = dates.length := by
    simp [itemsSync_length]
  have h2 : ((List.range dates.length).map fun i =>
      ((itemsSync o apiKey dates).map Prod.fst).getD i false) =
      (itemsSync o apiKey dates).map Prod.fst := by
    rw [← hlen]
    exact map_getD_range _
  have h1 := hc.map fun i => ((itemsSync o apiKey dates).map Prod.fst).getD i false
  rw [h2] at h1
  exact h1

theorem itemsAsync_getD (o : Oracle) (apiKey : String) (dates : List String)
    (i : Nat) (hi : i < dates.length) :
    ((itemsAsync o apiKey dates).map Prod.fst).getD i false =
      (downloadApodAsync o apiKey (dates.getD i "") i).1 := by
  have hlen : ((itemsAsync o apiKey dates).map Prod.fst).length = dates.length := by
    simp [itemsAsync]
  rw [List.getD_eq_getElem _ _ (by rw [hlen]; exact hi),
      List.getD_eq_getElem _ _ hi]
  simp [itemsAsync, List.getElem_enum]

/-- Collaborator whose image GET always raises (e.g. a socket timeout) while
the metadata GET and write succeed. -/
def oracleFailImg : Oracle where
  getMeta := fun _ => .ok (200, ⟨some "img"⟩)
  getImage := fun _ => .error "timed out"
  writeFile := fun _ _ => .ok ()

/-- The batch outcome of a fully successful one-item sync run under
`oracleAllOk` with API key `"k"` and date `"d"`. -/
def okRun1 : BatchOutcome where
  outcomes := [true]
  calls := [.locate (metadataUrl "k" "d") (some 30), .fetch "img" (some 30),
            .persist (outputFile 0)]
  ret := true

/-- The batch outcome of `runSync oracleFailA "k" 3 3 ["A", "B"] [1, 0]`:
item 0 fails at the metadata GET, item 1 succeeds, and the second item
completes first. -/
def failARun2 : BatchOutcome where
  outcomes := [true, false]
  calls := [.locate (metadataUrl "k" "A") (some 30),
            .locate (metadataUrl "k" "B") (some 30),
            .fetch "img" (some 30), .persist (outputFile 1)]
  ret := false

/-- C1: for every input key sequence of length K — and, in the threaded
variant, every order in which the pool completes the futures — the batch
run produces exactly K outcomes, one per input item: the collected list
has length K and is a permutation of the per-item outcome list indexed
0..K-1; the asyncio variant likewise returns exactly K outcomes. -/
theorem c1_cardinality (o : Oracle) (apiKey : String) (maxDl maxExp : Int)
    (dates : List String) (comp : List Nat) (hN : 1 ≤ maxDl)
    (hc : comp.Perm (List.range dates.length)) :
    (syncOutcomes (runSync o apiKey maxDl maxExp dates comp)).length = dates.length ∧
    (syncOutcomes (runSync o apiKey maxDl maxExp dates comp)).Perm
      ((itemsSync o apiKey dates).map Prod.fst) ∧
    ∃ r, runAsync o apiKey maxDl maxExp dates = .done r ∧
      r.outcomes.length = dates.length := by
  refine ⟨?_, syncOutcomes_perm o apiKey maxDl maxExp dates comp hN hc, ?_⟩
  · rw [runSync_ok o apiKey maxDl maxExp dates comp hN]
    show (comp.map _).length = dates.length
    rw [List.length_map, hc.length_eq, List.length_range]
  · exact ⟨_, runAsync_done o apiKey maxDl maxExp dates hN, by simp [itemsAsync]⟩

theorem c1_cardinality_witness :
    (1 : Int) ≤ 3 ∧
    ([0] : List Nat).Perm (List.range 1) ∧
    (syncOutcomes (runSync oracleAllOk "DEMO_KEY" 3 3 ["2020-03-01"] [0])).length = 1 ∧
    (syncOutcomes (runSync oracleAllOk "DEMO_KEY" 3 3 ["2020-03-01"] [0])).Perm
      ((itemsSync oracleAllOk "DEMO_KEY" ["2020-03-01"]).map Prod.fst) ∧
    ∃ r, runAsync oracleAllOk "DEMO_KEY" 3 3 ["2020-03-01"] = .done r ∧
      r.outcomes.length = 1 :=
  ⟨by decide, by decide,
    (c1_cardinality oracleAllOk "DEMO_KEY" 3 3 ["2020-03-01"] [0]
      (by decide) (by decide)).1,
    (c1_cardinality oracleAllOk "DEMO_KEY" 3 3 ["2020-03-01"] [0]
      (by decide) (by decide)).2.1,
    (c1_cardinality oracleAllOk "DEMO_KEY" 3 3 ["2020-03-01"] [0]
      (by decide) (by decide)).2.2⟩

/-- C5 is false as stated for the threaded implementation: with keys
["A", "B"], item 0 failing at the locate step, item 1 succeeding, and the
pool completing item 1 before item 0, `as_completed` yields the outcomes
as [true, false] — not the index-ordered list of per-item outcomes
[false, true].  (The collected outcomes are plain booleans and carry no
index field at all.) -/
theorem c5_counterexample :
    syncOutcomes (runSync oracleFailA "k" 3 3 ["A", "B"] [1, 0]) ≠
      [(downloadApodSync oracleFailA "k" "A" 0).1,
       (downloadApodSync oracleFailA "k" "B" 1).1] := by decide

/-- C5 (amended): the asyncio variant does assemble outcomes in original
input-index order (`asyncio.gather` preserves task order): outcome i is
item i's own worker result; the threaded variant appends the plain boolean
outcomes in completion order, so its list is only a permutation of the
index-ordered per-item outcomes — and the aggregate return value
`all(results)` is unaffected by the completion order. -/
theorem c5_amended (o : Oracle) (apiKey : String) (maxDl maxExp : Int)
    (dates : List String) (comp : List Nat) (i : Nat) (r : BatchOutcome)
    (hN : 1 ≤ maxDl) (hc : comp.Perm (List.range dates.length))
    (hi : i < dates.length)
    (hrun : runSync o apiKey maxDl maxExp dates comp = .ok r) :
    (∃ ra, runAsync o apiKey maxDl maxExp dates = .done ra ∧
      ra.outcomes.getD i false = (downloadApodAsync o apiKey (dates.getD i "") i).1) ∧
    r.outcomes.Perm ((itemsSync o apiKey dates).map Prod.fst) ∧
    r.ret = ((itemsSync o apiKey dates).map Prod.fst).all id := by
  have hp := syncOutcomes_perm o apiKey maxDl maxExp dates comp hN hc
  rw [hrun] at hp
  have hp' : r.outcomes.Perm ((itemsSync o apiKey dates).map Prod.fst) := hp
  refine ⟨⟨_, runAsync_done o apiKey maxDl maxExp dates hN,
    itemsAsync_getD o apiKey dates i hi⟩, hp', ?_⟩
  have hret : r.ret = r.outcomes.all id := by
    rw [runSync_ok o apiKey maxDl maxExp dates comp hN] at hrun
    injection hrun with h
    subst h
    rfl
  rw [hret]
  exact perm_all_eq hp' id

theorem c5_amended_witness :
    (1 : Int) ≤ 3 ∧
    ([1, 0] : List Nat).Perm (List.range 2) ∧
    (0 : Nat) < 2 ∧
    runSync oracleFailA "k" 3 3 ["A", "B"] [1, 0] = .ok failARun2 ∧
    ((∃ ra, runAsync oracleFailA "k" 3 3 ["A", "B"] = .done ra ∧
      ra.outcomes.getD 0 false =
        (downloadApodAsync oracleFailA "k" ((["A", "B"] : List String).getD 0 "") 0).1) ∧
    failARun2.outcomes.Perm ((itemsSync oracleFailA "k" ["A", "B"]).map Prod.fst) ∧
    failARun2.ret = ((itemsSync oracleFailA "k" ["A", "B"]).map Prod.fst).all id) :=
  ⟨by decide, by decide, by decide, rfl,
    c5_amended oracleFailA "k" 3 3 ["A", "B"] [1, 0] 0 failARun2
      (by decide) (by decide) (by decide) rfl⟩

/-- The batch outcome of the fully successful one-item asyncio run under
`oracleAllOk` with API key `"k"` and date `"d"`. -/
def okRunAsync1 : BatchOutcome where
  outcomes := [true]
  calls := [.locate (metadataUrl "k" "d") none, .fetch "img" none,
            .persist (outputFile 0)]
  ret := true

/-- C7: in both variants the aggregate flag is `all(results)`: true iff
every per-item outcome is a success; the empty batch returns an empty
outcome list, aggregate success, and zero collaborator calls, in both
variants as well. -/
theorem c7_all_succeeded (o : Oracle) (apiKey : String) (maxDl maxExp : Int)
    (dates : List String) (comp : List Nat) (r ra : BatchOutcome)
    (hN : 1 ≤ maxDl)
    (hrun : runSync o apiKey maxDl maxExp dates comp = .ok r)
    (hrunA : runAsync o apiKey maxDl maxExp dates = .done ra) :
    (r.ret = true ↔ ∀ b ∈ r.outcomes, b = true) ∧
    (ra.ret = true ↔ ∀ b ∈ ra.outcomes, b = true) ∧
    runSync o apiKey maxDl maxExp [] [] = .ok ⟨[], [], true⟩ ∧
    runAsync o apiKey maxDl maxExp [] = .done ⟨[], [], true⟩ := by
  refine ⟨?_, ?_, ?_, ?_⟩
  · rw [runSync_ok o apiKey maxDl maxExp dates comp hN] at hrun
    injection hrun with h
    subst h
    simp [List.all_eq_true]
  · rw [runAsync_done o apiKey maxDl maxExp dates hN] at hrunA
    injection hrunA with h
    subst h
    simp [List.all_eq_true]
  · rw [runSync_ok o apiKey maxDl maxExp [] [] hN]
    rfl
  · rw [runAsync_done o apiKey maxDl maxExp [] hN]
    rfl

theorem c7_all_succeeded_witness :
    (1 : Int) ≤ 3 ∧
    runSync oracleAllOk "k" 3 3 ["d"] [0] = .ok okRun1 ∧
    runAsync oracleAllOk "k" 3 3 ["d"] = .done okRunAsync1 ∧
    ((okRun1.ret = true ↔ ∀ b ∈ okRun1.outcomes, b = true) ∧
    (okRunAsync1.ret = true ↔ ∀ b ∈ okRunAsync1.outcomes, b = true) ∧
    runSync oracleAllOk "k" 3 3 [] [] = .ok ⟨[], [], true⟩ ∧
    runAsync oracleAllOk "k" 3 3 [] = .done ⟨[], [], true⟩) :=
  ⟨by decide, rfl, rfl,
    c7_all_succeeded oracleAllOk "k" 3 3 ["d"] [0] okRun1 okRunAsync1
      (by decide) rfl rfl⟩

/-- C9: in both variants, `main` exits with status 0 exactly when the
batch result's aggregate flag is true, and with the nonzero status 1
otherwise. -/
theorem c9_exit_status (o : Oracle) (env : Option String) (argv : List String)
    (comp : List Nat) :
    (∃ r c, runSync o (env.getD "DEMO_KEY") 3 3
        (if argv = [] then ["2020-03-01"] else argv) comp = .ok r ∧
      mainSync o env argv comp = .ok c ∧ (c = 0 ↔ r.ret = true) ∧
      (r.ret = false → c ≠ 0)) ∧
    (∃ r c, runAsync o (env.getD "DEMO_KEY") 3 3
        (if argv = [] then ["2020-03-01"] else argv) = .done r ∧
      mainAsync o env argv = .ok c ∧ (c = 0 ↔ r.ret = true) ∧
      (r.ret = false → c ≠ 0)) := by
  constructor
  · obtain ⟨r, hr⟩ : ∃ r, runSync o (env.getD "DEMO_KEY") 3 3
        (if argv = [] then ["2020-03-01"] else argv) comp = .ok r :=
      ⟨_, runSync_ok o (env.getD "DEMO_KEY") 3 3 _ comp (by decide)⟩
    refine ⟨r, if r.ret then 0 else 1, hr, ?_, ?_, ?_⟩
    · simp only [mainSync, hr]
    · cases hret : r.ret <;> simp
    · cases hret : r.ret <;> simp
  · obtain ⟨r, hr⟩ : ∃ r, runAsync o (env.getD "DEMO_KEY") 3 3
        (if argv = [] then ["2020-03-01"] else argv) = .done r :=
      ⟨_, runAsync_done o (env.getD "DEMO_KEY") 3 3 _ (by decide)⟩
    refine ⟨r, if r.ret then 0 else 1, hr, ?_, ?_, ?_⟩
    · simp only [mainAsync, hr]
    · cases hret : r.ret <;> simp
    · cases hret : r.ret <;> simp

/-- C10: `max_concurrent_exports` is stored and echoed in the banner but
never consulted: two runs of either variant that differ only in that
constructor argument return the same value and issue the very same
collaborator calls (in particular the same file writes). -/
theorem c10_export_limit_unused (o : Oracle) (apiKey : String)
    (maxDl e₁ e₂ : Int) (dates : List String) (comp : List Nat) :
    runSync o apiKey maxDl e₁ dates comp = runSync o apiKey maxDl e₂ dates comp ∧
    runAsync o apiKey maxDl e₁ dates = runAsync o apiKey maxDl e₂ dates :=
  ⟨rfl, rfl⟩

theorem sched_running_le {n k : Nat} {s : SchedState} (h : Reachable n k s) :
    s.running.length ≤ n := by
  induction h with
  | init => simp [initState]
  | step _ hstep ih =>
    cases hstep with
    | start i rest r d hlt =>
      show (i :: r).length ≤ n
      simp only [List.length_cons]
      omega
    | finish i q r₁ r₂ d =>
      have ih' : (r₁ ++ i :: r₂).length ≤ n := ih
      show (r₁ ++ r₂).length ≤ n
      simp only [List.length_append, List.length_cons] at ih' ⊢
      omega

/-- C2: under the admission gate of the pool/semaphore, in every state
reachable during a batch of `k` items with budget `n ≥ 1` at most `n`
items are inside the worker body, and whenever a slot is free (fewer than
`n` running — in particular right after a completion) the next queued
item may start at once. -/
theorem c2_concurrency_bound (n k : Nat) (s : SchedState) (i : Nat)
    (rest : List Nat) (_hn : 1 ≤ n) (hr : Reachable n k s) :
    s.running.length ≤ n ∧
    (s.queued = i :: rest → s.running.length < n →
      SchedStep n s ⟨rest, i :: s.running, s.done⟩) := by
  refine ⟨sched_running_le hr, ?_⟩
  intro hq hlt
  obtain ⟨q, r, d⟩ := s
  simp only at hq hlt ⊢
  subst hq
  exact SchedStep.start i rest r d hlt

theorem c2_concurrency_bound_witness :
    1 ≤ 1 ∧
    (initState 1).running.length ≤ 1 ∧
    SchedStep 1 (initState 1) ⟨[], [0], []⟩ :=
  ⟨by decide,
    (c2_concurrency_bound 1 1 (initState 1) 0 [] (by decide) Reachable.init).1,
    (c2_concurrency_bound 1 1 (initState 1) 0 [] (by decide) Reachable.init).2
      (by decide) (by decide)⟩

theorem itemsSync_getD (o : Oracle) (apiKey : String) (dates : List String)
    (i : Nat) (hi : i < dates.length) :
    ((itemsSync o apiKey dates).map Prod.fst).getD i false =
      (downloadApodSync o apiKey (dates.getD i "") i).1 := by
  have hlen : ((itemsSync o apiKey dates).map Prod.fst).length = dates.length := by
    simp [itemsSync]
  rw [List.getD_eq_getElem _ _ (by rw [hlen]; exact hi),
      List.getD_eq_getElem _ _ hi]
  simp [itemsSync, List.getElem_enum]

/-- C4: in both variants the worker body is one `try/except` that converts
every collaborator error into a terminal `False` outcome, and the
orchestration is per-item: whenever item i's own collaborator calls (its
metadata GET, image GET and file write) succeed — with no assumption at
all on how the collaborators behave for any other item — the asyncio run
completes with outcome i a success, the threaded worker for item i returns
success, and the threaded run completes with one outcome per item (a
permutation of the per-item list) in which item i's entry is a success. -/
theorem c4_isolation (o : Oracle) (apiKey : String) (maxDl maxExp : Int)
    (dates : List String) (comp : List Nat) (i : Nat) (u : String)
    (imageData : List Nat) (hN : 1 ≤ maxDl) (hi : i < dates.length)
    (hc : comp.Perm (List.range dates.length))
    (hm : o.getMeta (metadataUrl apiKey (dates.getD i "")) = .ok (200, ⟨some u⟩))
    (hf : o.getImage u = .ok (200, imageData))
    (hw : o.writeFile (outputFile i) imageData = .ok ()) :
    (∃ r, runAsync o apiKey maxDl maxExp dates = .done r ∧
      r.outcomes.length = dates.length ∧
      r.outcomes.getD i false = true) ∧
    (downloadApodSync o apiKey (dates.getD i "") i).1 = true ∧
    (∃ r, runSync o apiKey maxDl maxExp dates comp = .ok r ∧
      r.outcomes.Perm ((itemsSync o apiKey dates).map Prod.fst) ∧
      ((itemsSync o apiKey dates).map Prod.fst).getD i false = true) := by
  have hsync : (downloadApodSync o apiKey (dates.getD i "") i).1 = true := by
    revert hm
    generalize dates.getD i "" = d
    intro hm
    simp [downloadApodSync, hm, hf, hw]
  refine ⟨?_, hsync, ?_⟩
  · refine ⟨_, runAsync_done o apiKey maxDl maxExp dates hN, by simp [itemsAsync], ?_⟩
    rw [itemsAsync_getD o apiKey dates i hi]
    revert hm
    generalize dates.getD i "" = d
    intro hm
    simp [downloadApodAsync, hm, hf, hw]
  · refine ⟨_, runSync_ok o apiKey maxDl maxExp dates comp hN, ?_, ?_⟩
    · have hp := syncOutcomes_perm o apiKey maxDl maxExp dates comp hN hc
      rw [runSync_ok o apiKey maxDl maxExp dates comp hN] at hp
      exact hp
    · rw [itemsSync_getD o apiKey dates i hi]
      exact hsync

theorem c4_isolation_witness :
    (1 : Int) ≤ 3 ∧ (0 : Nat) < 3 ∧
    ([2, 1, 0] : List Nat).Perm (List.range 3) ∧
    oracleFailB.getMeta (metadataUrl "k" ((["A", "B", "C"] : List String).getD 0 "")) =
      .ok (200, ⟨some "img"⟩) ∧
    oracleFailB.getImage "img" = .ok (200, [7, 7]) ∧
    oracleFailB.writeFile (outputFile 0) [7, 7] = .ok () ∧
    ((∃ r, runAsync oracleFailB "k" 3 3 ["A", "B", "C"] = .done r ∧
      r.outcomes.length = 3 ∧ r.outcomes.getD 0 false = true) ∧
    (downloadApodSync oracleFailB "k" ((["A", "B", "C"] : List String).getD 0 "") 0).1 = true ∧
    (∃ r, runSync oracleFailB "k" 3 3 ["A", "B", "C"] [2, 1, 0] = .ok r ∧
      r.outcomes.Perm ((itemsSync oracleFailB "k" ["A", "B", "C"]).map Prod.fst) ∧
      ((itemsSync oracleFailB "k" ["A", "B", "C"]).map Prod.fst).getD 0 false = true)) :=
  ⟨by decide, by decide, by decide, rfl, rfl, rfl,
    c4_isolation oracleFailB "k" 3 3 ["A", "B", "C"] [2, 1, 0] 0 "img" [7, 7]
      (by decide) (by decide) (by decide) rfl rfl rfl⟩

/-- C8: the worker's steps are strictly sequenced with early exit, in both
variants: a raised metadata GET or a metadata object without a `url` field
yields `False` with no image fetch and no file write (and, in the async
variant, likewise when the metadata response has a non-success status is
covered by the raised case of its transport layer); a raised image GET
yields `False` with no file write. -/
theorem c8_early_exit (o : Oracle) (apiKey date : String) (i : Nat) :
    (∀ e, o.getMeta (metadataUrl apiKey date) = .error e →
      (downloadApodSync o apiKey date i).1 = false ∧
      ((downloadApodSync o apiKey date i).2.all fun c => !c.isFetch && !c.isPersist) = true ∧
      (downloadApodAsync o apiKey date i).1 = false ∧
      ((downloadApodAsync o apiKey date i).2.all fun c => !c.isFetch && !c.isPersist) = true) ∧
    (∀ st md, o.getMeta (metadataUrl apiKey date) = .ok (st, md) → md.url? = none →
      (downloadApodSync o apiKey date i).1 = false ∧
      ((downloadApodSync o apiKey date i).2.all fun c => !c.isFetch && !c.isPersist) = true) ∧
    (∀ md, o.getMeta (metadataUrl apiKey date) = .ok (200, md) → md.url? = none →
      (downloadApodAsync o apiKey date i).1 = false ∧
      ((downloadApodAsync o apiKey date i).2.all fun c => !c.isFetch && !c.isPersist) = true) ∧
    (∀ st md u e, o.getMeta (metadataUrl apiKey date) = .ok (st, md) → md.url? = some u →
      o.getImage u = .error e →
      (downloadApodSync o apiKey date i).1 = false ∧
      ((downloadApodSync o apiKey date i).2.all fun c => !c.isPersist) = true) ∧
    (∀ md u e, o.getMeta (metadataUrl apiKey date) = .ok (200, md) → md.url? = some u →
      o.getImage u = .error e →
      (downloadApodAsync o apiKey date i).1 = false ∧
      ((downloadApodAsync o apiKey date i).2.all fun c => !c.isPersist) = true) := by
  refine ⟨?_, ?_, ?_, ?_, ?_⟩
  · intro e hm
    simp [downloadApodSync, downloadApodAsync, hm, Call.isFetch, Call.isPersist]
  · intro st md hm hu
    simp [downloadApodSync, hm, hu, Call.isFetch, Call.isPersist]
  · intro md hm hu
    simp [downloadApodAsync, hm, hu, Call.isFetch, Call.isPersist]
  · intro st md u e hm hu hf
    simp [downloadApodSync, hm, hu, hf, Call.isFetch, Call.isPersist]
  · intro md u e hm hu hf
    simp [downloadApodAsync, hm, hu, hf, Call.isFetch, Call.isPersist]

theorem c8_early_exit_witness :
    oracleFailB.getMeta (metadataUrl "k" "B") = .error "boom" ∧
    (downloadApodSync oracleFailB "k" "B" 1).1 = false ∧
    ((downloadApodSync oracleFailB "k" "B" 1).2.all fun c => !c.isFetch && !c.isPersist) = true ∧
    (downloadApodAsync oracleFailB "k" "B" 1).1 = false ∧
    ((downloadApodAsync oracleFailB "k" "B" 1).2.all fun c => !c.isFetch && !c.isPersist) = true :=
  ⟨rfl, (c8_early_exit oracleFailB "k" "B" 1).1 "boom" rfl⟩

theorem downloadApodSync_http_timeout (o : Oracle) (apiKey date : String) (i : Nat) :
    ((downloadApodSync o apiKey date i).2.all fun c =>
      !c.isHttp || (c.timeoutArg == some 30)) = true := by
  rcases hm : o.getMeta (metadataUrl apiKey date) with e | ⟨st, md⟩
  · simp [downloadApodSync, hm, Call.isHttp, Call.timeoutArg]
  · rcases hu : md.url? with _ | u
    · simp [downloadApodSync, hm, hu, Call.isHttp, Call.timeoutArg]
    · rcases hf : o.getImage u with e2 | ⟨ist, data⟩
      · simp [downloadApodSync, hm, hu, hf, Call.isHttp, Call.timeoutArg]
      · rcases hw : o.writeFile (outputFile i) data with e3 | w
        · simp [downloadApodSync, hm, hu, hf, hw, Call.isHttp, Call.timeoutArg]
        · simp [downloadApodSync, hm, hu, hf, hw, Call.isHttp, Call.timeoutArg]

theorem runSync_calls_mem (o : Oracle) (apiKey : String) (maxDl maxExp : Int)
    (dates : List String) (comp : List Nat) (r : BatchOutcome)
    (hrun : runSync o apiKey maxDl maxExp dates comp = .ok r) :
    ∀ c ∈ r.calls, ∃ idx d, c ∈ (downloadApodSync o apiKey d idx).2 := by
  by_cases hle : maxDl ≤ 0
  · simp [runSync, hle] at hrun
  · have hN : (1 : Int) ≤ maxDl := by omega
    rw [runSync_ok o apiKey maxDl maxExp dates comp hN] at hrun
    injection hrun with h
    subst h
    intro c hc
    replace hc : c ∈ ((itemsSync o apiKey dates).map Prod.snd).flatten := hc
    rw [List.mem_flatten] at hc
    obtain ⟨l, hl, hcl⟩ := hc
    rw [List.mem_map] at hl
    obtain ⟨pair, hpair, rfl⟩ := hl
    rw [itemsSync, List.mem_map] at hpair
    obtain ⟨p, _, rfl⟩ := hpair
    exact ⟨p.1, p.2, hcl⟩

/-- C6 is false as stated: in a fully successful one-item run of the
threaded variant, the trace contains the file-write (persist) call, which
the code performs with no timeout parameter at all, so not every
locate/fetch/persist call is bounded by a 30-unit timeout.  (The async
variant passes no explicit per-call timeout even on its HTTP calls.) -/
theorem c6_counterexample :
    ((syncCalls (runSync oracleAllOk "DEMO_KEY" 3 3 ["2020-03-01"] [0])).all
      fun c => c.timeoutArg == some 30) = false := by decide

theorem downloadApodAsync_no_timeout (o : Oracle) (apiKey date : String) (i : Nat) :
    ((downloadApodAsync o apiKey date i).2.all fun c => c.timeoutArg == none) = true := by
  rcases hm : o.getMeta (metadataUrl apiKey date) with e | ⟨st, md⟩
  · simp [downloadApodAsync, hm, Call.timeoutArg]
  · by_cases hst : st = 200
    · subst hst
      rcases hu : md.url? with _ | u
      · simp [downloadApodAsync, hm, hu, Call.timeoutArg]
      · rcases hf : o.getImage u with e2 | ⟨ist, data⟩
        · simp [downloadApodAsync, hm, hu, hf, Call.timeoutArg]
        · by_cases hist : ist = 200
          · subst hist
            rcases hw : o.writeFile (outputFile i) data with e3 | w
            · simp [downloadApodAsync, hm, hu, hf, hw, Call.timeoutArg]
            · simp [downloadApodAsync, hm, hu, hf, hw, Call.timeoutArg]
          · simp [downloadApodAsync, hm, hu, hf, hist, Call.timeoutArg]
    · simp [downloadApodAsync, hm, hst, Call.timeoutArg]

theorem runAsync_calls_mem (o : Oracle) (apiKey : String) (maxDl maxExp : Int)
    (dates : List String) (ra : BatchOutcome)
    (hrun : runAsync o apiKey maxDl maxExp dates = .done ra) :
    ∀ c ∈ ra.calls, ∃ idx d, c ∈ (downloadApodAsync o apiKey d idx).2 := by
  by_cases h1 : maxDl < 0
  · simp [runAsync, h1] at hrun
  · by_cases h2 : maxDl = 0 ∧ dates ≠ []
    · simp [runAsync, h1, h2] at hrun
    · rw [show runAsync o apiKey maxDl maxExp dates =
          .done { outcomes := (itemsAsync o apiKey dates).map Prod.fst
                  calls := ((itemsAsync o apiKey dates).map Prod.snd).flatten
                  ret := ((itemsAsync o apiKey dates).map Prod.fst).all id }
          from by simp [runAsync, h1, h2]] at hrun
      injection hrun with h
      subst h
      intro c hc
      replace hc : c ∈ ((itemsAsync o apiKey dates).map Prod.snd).flatten := hc
      rw [List.mem_flatten] at hc
      obtain ⟨l, hl, hcl⟩ := hc
      rw [List.mem_map] at hl
      obtain ⟨pair, hpair, rfl⟩ := hl
      rw [itemsAsync, List.mem_map] at hpair
      obtain ⟨p, _, rfl⟩ := hpair
      exact ⟨p.1, p.2, hcl⟩

/-- C6 (amended): in the threaded variant every HTTP call (metadata locate
and image fetch) carries the explicit 30-second timeout and the persist
file write carries none; the asyncio variant passes no explicit per-call
timeout on any call; a raised image GET — a timeout raises — yields a
`False` outcome for that item only, through the worker's `except`. -/
theorem c6_amended (o : Oracle) (apiKey : String) (maxDl maxExp : Int)
    (dates : List String) (comp : List Nat) (r ra : BatchOutcome)
    (hrun : runSync o apiKey maxDl maxExp dates comp = .ok r)
    (hrunA : runAsync o apiKey maxDl maxExp dates = .done ra) :
    ((r.calls.all fun c => !c.isHttp || (c.timeoutArg == some 30)) = true) ∧
    ((r.calls.all fun c => !c.isPersist || (c.timeoutArg == none)) = true) ∧
    ((ra.calls.all fun c => c.timeoutArg == none) = true) ∧
    (∀ d idx st md u e, o.getMeta (metadataUrl apiKey d) = .ok (st, md) →
      md.url? = some u → o.getImage u = .error e →
      (downloadApodSync o apiKey d idx).1 = false) := by
  refine ⟨?_, ?_, ?_, ?_⟩
  · rw [List.all_eq_true]
    intro c hc
    obtain ⟨idx, d, hmem⟩ := runSync_calls_mem o apiKey maxDl maxExp dates comp r hrun c hc
    have hall := downloadApodSync_http_timeout o apiKey d idx
    rw [List.all_eq_true] at hall
    exact hall c hmem
  · rw [List.all_eq_true]
    intro c _
    cases c <;> simp [Call.isPersist, Call.timeoutArg]
  · rw [List.all_eq_true]
    intro c hc
    obtain ⟨idx, d, hmem⟩ := runAsync_calls_mem o apiKey maxDl maxExp dates ra hrunA c hc
    have hall := downloadApodAsync_no_timeout o apiKey d idx
    rw [List.all_eq_true] at hall
    exact hall c hmem
  · intro d idx st md u e hm hu hf
    simp [downloadApodSync, hm, hu, hf]

/-- The batch outcome of `runSync oracleFailImg "k" 3 3 ["d"] [0]`: the
image GET raises (e.g. times out), so no write happens and the item
fails. -/
def failImgRun1 : BatchOutcome where
  outcomes := [false]
  calls := [.locate (metadataUrl "k" "d") (some 30), .fetch "img" (some 30)]
  ret := false

/-- The batch outcome of `runAsync oracleFailImg "k" 3 3 ["d"]`: same
failure in the asyncio variant, whose calls carry no timeout argument. -/
def failImgRunAsync1 : BatchOutcome where
  outcomes := [false]
  calls := [.locate (metadataUrl "k" "d") none, .fetch "img" none]
  ret := false

theorem c6_amended_witness :
    runSync oracleFailImg "k" 3 3 ["d"] [0] = .ok failImgRun1 ∧
    runAsync oracleFailImg "k" 3 3 ["d"] = .done failImgRunAsync1 ∧
    ((failImgRun1.calls.all fun c => !c.isHttp || (c.timeoutArg == some 30)) = true) ∧
    ((failImgRun1.calls.all fun c => !c.isPersist || (c.timeoutArg == none)) = true) ∧
    ((failImgRunAsync1.calls.all fun c => c.timeoutArg == none) = true) ∧
    (downloadApodSync oracleFailImg "k" "d" 0).1 = false :=
  ⟨rfl, rfl,
    (c6_amended oracleFailImg "k" 3 3 ["d"] [0] failImgRun1 failImgRunAsync1 rfl rfl).1,
    (c6_amended oracleFailImg "k" 3 3 ["d"] [0] failImgRun1 failImgRunAsync1 rfl rfl).2.1,
    (c6_amended oracleFailImg "k" 3 3 ["d"] [0] failImgRun1 failImgRunAsync1 rfl rfl).2.2.1,
    (c6_amended oracleFailImg "k" 3 3 ["d"] [0] failImgRun1 failImgRunAsync1 rfl rfl).2.2.2
      "d" 0 200 ⟨some "img"⟩ "img" "timed out" rfl rfl rfl⟩

/-- C3 is false as stated: no `ConfigurationError` (or any validation of
the concurrency limit) exists in the code.  In the asyncio variant a limit
of 0 is accepted by `asyncio.Semaphore(0)`, and a nonempty batch then
deadlocks — every worker blocks forever on the semaphore and no task ever
releases it — so the run neither fails fast nor fails at all: it hangs,
which is by definition distinct from every raised-error result. -/
theorem c3_counterexample :
    runAsync oracleAllOk "DEMO_KEY" 0 3 ["2020-03-01"] = .hangs := by decide

/-- C3 (amended): the threaded variant raises `ValueError` from
`ThreadPoolExecutor(max_workers=...)` for a limit ≤ 0, after the banner
but before any work is scheduled (zero collaborator calls); the asyncio
variant raises `ValueError` from `asyncio.Semaphore` at construction time
for a negative limit, while a limit of exactly 0 is accepted and a
nonempty batch hangs forever with zero collaborator calls. -/
theorem c3_amended (o : Oracle) (apiKey : String) (maxDl maxExp : Int)
    (dates : List String) (comp : List Nat) (hle : maxDl ≤ 0) :
    runSync o apiKey maxDl maxExp dates comp =
      .error (.valueError "max_workers must be greater than 0") ∧
    syncCalls (runSync o apiKey maxDl maxExp dates comp) = [] ∧
    (maxDl < 0 → runAsync o apiKey maxDl maxExp dates =
      .error (.valueError "Semaphore initial value must be >= 0")) ∧
    (maxDl = 0 → dates ≠ [] → runAsync o apiKey maxDl maxExp dates = .hangs) := by
  refine ⟨?_, ?_, ?_, ?_⟩
  · simp [runSync, hle]
  · simp [runSync, hle, syncCalls]
  · intro h
    simp [runAsync, h]
  · intro h hne
    simp [runAsync, h, hne]

theorem c3_amended_witness :
    (0 : Int) ≤ 0 ∧
    runSync oracleAllOk "k" 0 3 ["d"] [] =
      .error (.valueError "max_workers must be greater than 0") ∧
    syncCalls (runSync oracleAllOk "k" 0 3 ["d"] []) = [] ∧
    runAsync oracleAllOk "k" 0 3 ["d"] = .hangs :=
  ⟨by decide,
    (c3_amended oracleAllOk "k" 0 3 ["d"] [] (by decide)).1,
    (c3_amended oracleAllOk "k" 0 3 ["d"] [] (by decide)).2.1,
    (c3_amended oracleAllOk "k" 0 3 ["d"] [] (by decide)).2.2.2 rfl (by decide)⟩

end Nasa4s
